import Mathlib

/-!
A shallow embedding of `src/serve.py`: a CORS-augmented static file server
built on Python's `http.server.SimpleHTTPRequestHandler`.  The subclass
overrides `end_headers` (appending three CORS headers before the base
finalization) and adds `do_OPTIONS`; the `__main__` block changes the working
directory to the script's directory, binds `("", 8000)`, prints two lines and
serves forever.  The parts of the standard library the script delegates to
(`BaseHTTPRequestHandler.send_response` / `send_error`,
`SimpleHTTPRequestHandler.do_GET` / `do_HEAD` / `send_head` /
`translate_path` / `list_directory`, `posixpath.normpath`) are embedded from
their sources.  Requests are modelled as HTTP/1.x requests (for HTTP/0.9 the
base class suppresses all headers) carrying no conditional headers, so the
`If-Modified-Since` branch of `send_head` is not taken; percent-decoding
(`urllib.parse.unquote`) happens before normalization, so a decoded path is
just another input string and is covered by quantifying over all paths.
-/

namespace Serve

/-- A response header: name and value. -/
abbrev Header := String × String

/-- An HTTP response as observed by the client: status code, the header
block in emission order, and the body bytes. -/
structure Response where
  status : Nat
  headers : List Header
  body : List Nat
deriving DecidableEq, Repr

/-- An inbound HTTP request: method and request-target path. -/
structure Request where
  method : String
  path : String
deriving DecidableEq, Repr

/-- Ambient values the base handler reads when building responses:
`self.version_string()`, `self.date_time_string()` for the current date, and
`self.date_time_string(mtime)` for file modification times. -/
structure Env where
  serverVersion : String
  dateNow : String
  fmtDate : Nat → String

/-! ### The overridden end_headers (src/serve.py lines 13-17) -/

/-- A primitive call made by `CORSHTTPRequestHandler.end_headers`: either
`self.send_header(name, value)` or `super().end_headers()`. -/
inductive HeaderAction
  | add (name value : String)
  | base
deriving DecidableEq, Repr

/-- The body of `CORSHTTPRequestHandler.end_headers` as the ordered sequence
of primitive calls it makes. -/
def end_headers_ops : List HeaderAction :=
  [.add "Access-Control-Allow-Origin" "*",
   .add "Access-Control-Allow-Methods" "GET, POST, OPTIONS",
   .add "Access-Control-Allow-Headers" "Content-Type",
   .base]

/-- The three CORS headers, in the order the override sends them. -/
def CORS_headers : List Header :=
  [("Access-Control-Allow-Origin", "*"),
   ("Access-Control-Allow-Methods", "GET, POST, OPTIONS"),
   ("Access-Control-Allow-Headers", "Content-Type")]

/-- The header a primitive call sends, if any. -/
def HeaderAction.added : HeaderAction → Option Header
  | .add n v => some (n, v)
  | .base => none

/-- Effect of one primitive call on the buffered header list:
`send_header` appends one header to `_headers_buffer`; the base
`end_headers` appends the blank-line terminator and flushes the buffer to
the socket, leaving the list of headers itself unchanged. -/
def HeaderAction.apply (buf : List Header) : HeaderAction → List Header
  | .add n v => buf ++ [(n, v)]
  | .base => buf

/-- The header block that reaches the wire when the overridden
`end_headers` runs with `buf` already buffered. -/
def end_headers (buf : List Header) : List Header :=
  end_headers_ops.foldl HeaderAction.apply buf

/-- Every response-producing path of the base handler finishes by calling
`self.end_headers()`, which is the override above; this builds the response
a path produces from its status, the headers it buffered, and its body. -/
def mkResponse (status : Nat) (buf : List Header) (body : List Nat) : Response :=
  ⟨status, end_headers buf, body⟩

/-! ### posixpath.normpath and translate_path -/

/-- All characters before the first occurrence of `c`: Python's
`s.split(c, 1)[0]`. -/
def takeUntilChar (c : Char) : List Char → List Char
  | [] => []
  | x :: xs => if x = c then [] else x :: takeUntilChar c xs

/-- Split at every occurrence of `c`: Python's `s.split(c)`. -/
def splitChar (c : Char) : List Char → List (List Char)
  | [] => [[]]
  | x :: xs =>
    if x = c then [] :: splitChar c xs
    else
      match splitChar c xs with
      | [] => [[x]]
      | h :: t => (x :: h) :: t

/-- Python `s.split(c)` for a one-character separator, component-wise. -/
def splitOnChar (c : Char) (s : String) : List String :=
  (splitChar c s.data).map (fun l => ⟨l⟩)

/-- Python `s.startswith(t)`. -/
def strStartsWith (s t : String) : Bool := t.data.isPrefixOf s.data

/-- Python `s.endswith(t)`. -/
def strEndsWith (s t : String) : Bool := t.data.isSuffixOf s.data

/-- The component loop of `posixpath.normpath`: skip empty and `.`
components; append a component unless it is a `..` that cancels against a
previous real component (a `..` at the root of an absolute path is
dropped). -/
def normpathLoop (initialSlashes : Nat) : List String → List String → List String
  | newComps, [] => newComps
  | newComps, comp :: rest =>
    if comp = "" ∨ comp = "." then normpathLoop initialSlashes newComps rest
    else if comp ≠ ".." ∨ (initialSlashes = 0 ∧ newComps = []) ∨
        newComps.getLast? = some ".." then
      normpathLoop initialSlashes (newComps ++ [comp]) rest
    else
      normpathLoop initialSlashes newComps.dropLast rest

/-- Embeds `posixpath.normpath`. -/
def normpath (path : String) : String :=
  if path = "" then "."
  else
    let initialSlashes : Nat :=
      if strStartsWith path "/" then
        if strStartsWith path "//" ∧ ¬ strStartsWith path "///" then 2 else 1
      else 0
    let comps := normpathLoop initialSlashes [] (splitOnChar '/' path)
    let p := String.join (List.replicate initialSlashes "/") ++
      String.intercalate "/" comps
    if p = "" then "." else p

/-- Result of `SimpleHTTPRequestHandler.translate_path`, split into the
path components joined under `self.directory` and the recorded explicit
trailing slash. -/
structure Translated where
  comps : List String
  trailingSlash : Bool
deriving DecidableEq, Repr

/-- Python `path.rstrip().endswith(sep)` for a single character. -/
def rstripEndsWith (s : String) (c : Char) : Bool :=
  match s.data.reverse.dropWhile (fun x => x.isWhitespace) with
  | [] => false
  | x :: _ => x = c

/-- Embeds `SimpleHTTPRequestHandler.translate_path`: drop query and fragment,
remember the explicit trailing slash, normalize, then join the non-empty
components that are not `.` or `..` under the served directory (after a
split on `/` no component can have a non-empty `os.path.dirname`). -/
def translate_path (path : String) : Translated :=
  let path : String := ⟨takeUntilChar '?' path.data⟩
  let path : String := ⟨takeUntilChar '#' path.data⟩
  let trailing := rstripEndsWith path '/'
  let path := normpath path
  let words := (splitOnChar '/' path).filter (fun w => w ≠ "")
  let comps := words.filter (fun w => ¬ (w = "." ∨ w = ".."))
  ⟨comps, trailing⟩

/-! ### Filesystem model -/

/-- A directory entry: a regular file with contents and mtime, or a
directory with the names `os.listdir` returns. -/
inductive Entry
  | file (content : List Nat) (mtime : Nat)
  | dir (listing : List String)
deriving DecidableEq, Repr

/-- The filesystem: a finite association of absolute paths (as component
lists) to entries. -/
abbrev FileSystem := List (List String × Entry)

/-- Entry at a path, if any. -/
def FileSystem.lookup (fs : FileSystem) (p : List String) : Option Entry :=
  (fs.find? (fun e => e.1 == p)).map (fun e => e.2)

/-- Embeds `os.path.isdir`. -/
def FileSystem.isdir (fs : FileSystem) (p : List String) : Bool :=
  match fs.lookup p with
  | some (.dir _) => true
  | _ => false

/-- Embeds `os.path.isfile`. -/
def FileSystem.isfile (fs : FileSystem) (p : List String) : Bool :=
  match fs.lookup p with
  | some (.file _ _) => true
  | _ => false

/-! ### BaseHTTPRequestHandler: send_response and send_error -/

/-- Embeds `BaseHTTPRequestHandler.send_response`: after the status line it buffers
the two standard `Server` and `Date` headers. -/
def send_response_headers (env : Env) : List Header :=
  [("Server", env.serverVersion), ("Date", env.dateNow)]

/-- Embeds `BaseHTTPRequestHandler.responses` (phrase, description), restricted to
the status codes this server can emit, with the `("???", "???")` fallback
`send_error` uses for unknown codes. -/
def responses (code : Nat) : String × String :=
  if code = 200 then ("OK", "Request fulfilled, document follows")
  else if code = 301 then
    ("Moved Permanently", "Object moved permanently -- see URI list")
  else if code = 404 then ("Not Found", "Nothing matches the given URI")
  else if code = 501 then
    ("Not Implemented", "Server does not support this operation")
  else ("???", "???")

/-- Embeds `DEFAULT_ERROR_MESSAGE` with `%(code)d`, `%(message)s`, `%(explain)s`
substituted, encoded as bytes (the text involved is ASCII, so codepoints
coincide with the UTF-8 encoding; `html.escape` of the interpolated values
is elided, the values this server interpolates contain no `&`, `<`, `>`). -/
def error_body (code : Nat) (message explain : String) : List Nat :=
  ("<!DOCTYPE HTML>\n<html lang=\"en\">\n    <head>\n        <meta charset=\"utf-8\">\n        <title>Error response</title>\n    </head>\n    <body>\n        <h1>Error response</h1>\n        <p>Error code: "
    ++ toString code ++ "</p>\n        <p>Message: " ++ message ++
    ".</p>\n        <p>Error code explanation: " ++ toString code ++ " - " ++
    explain ++
    ".</p>\n    </body>\n</html>\n").data.map Char.toNat

/-- Embeds `BaseHTTPRequestHandler.send_error(code, message)`: `send_response`,
`Connection: close`, then (for codes outside 1xx/204/205/304) an HTML body
with `Content-Type` and `Content-Length` headers; the body is written only
when the command is not `HEAD`. All call sites modelled pass an explicit
message; `explain` defaults to the table description. -/
def send_error (env : Env) (command : String) (code : Nat) (message : String) :
    Response :=
  let explain := (responses code).2
  let head := send_response_headers env ++ [("Connection", "close")]
  if 200 ≤ code ∧ code ≠ 204 ∧ code ≠ 205 ∧ code ≠ 304 then
    let body := error_body code message explain
    let head := head ++
      [("Content-Type", "text/html;charset=utf-8"),
       ("Content-Length", toString body.length)]
    mkResponse code head (if command ≠ "HEAD" then body else [])
  else
    mkResponse code head []

/-! ### SimpleHTTPRequestHandler: guess_type, list_directory, send_head -/

/-- Embeds `SimpleHTTPRequestHandler.guess_type` via `mimetypes`, restricted to
the extensions relevant here; unknown extensions fall back to
`application/octet-stream`. -/
def guess_type (path : String) : String :=
  if strEndsWith path ".html" ∨ strEndsWith path ".htm" then "text/html"
  else if strEndsWith path ".js" then "text/javascript"
  else if strEndsWith path ".css" then "text/css"
  else if strEndsWith path ".json" then "application/json"
  else if strEndsWith path ".txt" then "text/plain"
  else "application/octet-stream"

/-- Embeds `html.escape(s, quote=False)`. -/
def html_escape (s : String) : String :=
  String.join (s.data.map (fun c =>
    if c = '&' then "&amp;"
    else if c = '<' then "&lt;"
    else if c = '>' then "&gt;"
    else String.singleton c))

/-- One hex digit, upper case. -/
def hexDigit (n : Nat) : Char :=
  "0123456789ABCDEF".data.getD n '0'

/-- Embeds `urllib.parse.quote` with its default safe characters (ASCII-accurate;
the listing names involved are ASCII). -/
def url_quote (s : String) : String :=
  String.join (s.data.map (fun c =>
    if c.isAlphanum ∨ c = '_' ∨ c = '.' ∨ c = '-' ∨ c = '~' ∨ c = '/' then
      String.singleton c
    else
      "%" ++ String.singleton (hexDigit (c.toNat / 16)) ++
        String.singleton (hexDigit (c.toNat % 16))))

/-- One `<li>` line of the directory listing: directories get a trailing
slash on both the display name and the link. -/
def dir_item (fs : FileSystem) (dirPath : List String) (name : String) :
    String :=
  let isd := fs.isdir (dirPath ++ [name])
  let displayname := if isd then name ++ "/" else name
  let linkname := if isd then name ++ "/" else name
  "<li><a href=\"" ++ url_quote linkname ++ "\">" ++
    html_escape displayname ++ "</a></li>"

/-- Embeds `SimpleHTTPRequestHandler.list_directory`: a 200 response whose payload is
the generated HTML index (the filesystem encoding here is utf-8; entries
are sorted by lowercased name; symbolic links do not occur in the model, so
the `@` decoration branch is not taken).  Like the Python function it
returns the file object for the caller to copy, i.e. the payload rides in
the second component. -/
def list_directory (env : Env) (fs : FileSystem) (dirPath : List String)
    (reqPath : String) (listing : List String) :
    Response × Option (List Nat) :=
  let sorted := listing.mergeSort (fun a b => decide (a.toLower ≤ b.toLower))
  let displaypath := html_escape reqPath
  let title := "Directory listing for " ++ displaypath
  let items := sorted.map (dir_item fs dirPath)
  let r := ["<!DOCTYPE HTML>", "<html lang=\"en\">", "<head>",
    "<meta charset=\"utf-8\">",
    "<title>" ++ title ++ "</title>\n</head>",
    "<body>\n<h1>" ++ title ++ "</h1>",
    "<hr>\n<ul>"] ++ items ++ ["</ul>\n<hr>\n</body>\n</html>\n"]
  let encoded := (String.intercalate "\n" r).data.map Char.toNat
  (mkResponse 200 (send_response_headers env ++
      [("Content-type", "text/html; charset=utf-8"),
       ("Content-Length", toString encoded.length)]) [],
   some encoded)

/-- The tail of `send_head` after the directory handling: guess the content
type, reject a trailing slash on a non-directory with 404, try to open the
file (404 on failure), else answer 200 with `Content-type`,
`Content-Length` and `Last-Modified` and hand the contents to the caller. -/
def file_tail (env : Env) (fs : FileSystem) (command : String)
    (path : List String) (trailingSlash : Bool) :
    Response × Option (List Nat) :=
  let ctype := guess_type (String.intercalate "/" path)
  if trailingSlash then (send_error env command 404 "File not found", none)
  else
    match fs.lookup path with
    | some (.file content mtime) =>
      (mkResponse 200 (send_response_headers env ++
          [("Content-type", ctype),
           ("Content-Length", toString content.length),
           ("Last-Modified", env.fmtDate mtime)]) [],
       some content)
    | _ => (send_error env command 404 "File not found", none)

/-- Embeds `SimpleHTTPRequestHandler.send_head`: translate the request path under
the served root; a directory requested without a trailing slash is
redirected with 301; a directory with a trailing slash serves `index.html`
or `index.htm` when one is a regular file and otherwise the generated
listing; anything else goes through `file_tail`. -/
def send_head (env : Env) (fs : FileSystem) (root : List String)
    (command reqPath : String) : Response × Option (List Nat) :=
  let t := translate_path reqPath
  let path := root ++ t.comps
  let partsPath : String := ⟨takeUntilChar '#' (takeUntilChar '?' reqPath.data)⟩
  match fs.lookup path with
  | some (.dir listing) =>
    if ¬ strEndsWith partsPath "/" then
      (mkResponse 301 (send_response_headers env ++
          [("Location", partsPath ++ "/"), ("Content-Length", "0")]) [],
       none)
    else if fs.isfile (path ++ ["index.html"]) then
      file_tail env fs command (path ++ ["index.html"]) false
    else if fs.isfile (path ++ ["index.htm"]) then
      file_tail env fs command (path ++ ["index.htm"]) false
    else
      list_directory env fs path reqPath listing
  | _ => file_tail env fs command path t.trailingSlash

/-- Embeds `SimpleHTTPRequestHandler.do_GET`: `send_head`, then copy the returned
payload into the response body. -/
def do_GET (env : Env) (fs : FileSystem) (root : List String)
    (reqPath : String) : Response :=
  match send_head env fs root "GET" reqPath with
  | (resp, some content) => { resp with body := content }
  | (resp, none) => resp

/-- Embeds `SimpleHTTPRequestHandler.do_HEAD`: `send_head` with the payload
discarded. -/
def do_HEAD (env : Env) (fs : FileSystem) (root : List String)
    (reqPath : String) : Response :=
  (send_head env fs root "HEAD" reqPath).1

/-- Embeds `CORSHTTPRequestHandler.do_OPTIONS` (src/serve.py lines 19-21):
`send_response(200)` followed by `end_headers()`. -/
def do_OPTIONS (env : Env) : Response :=
  mkResponse 200 (send_response_headers env) []

/-- A single-quote character, for the `%r` rendering in the 501 message. -/
def squote : String := String.singleton (Char.ofNat 39)

/-- Embeds `BaseHTTPRequestHandler.handle_one_request` dispatch: `do_GET` and
`do_HEAD` come from `SimpleHTTPRequestHandler`, `do_OPTIONS` from the
subclass; any other method has no `do_<command>` attribute and receives
`501 Unsupported method (%r)`. -/
def handle (env : Env) (fs : FileSystem) (root : List String) (req : Request) :
    Response :=
  if req.method = "GET" then do_GET env fs root req.path
  else if req.method = "HEAD" then do_HEAD env fs root req.path
  else if req.method = "OPTIONS" then do_OPTIONS env
  else send_error env req.method 501
    ("Unsupported method (" ++ squote ++ req.method ++ squote ++ ")")

/-! ### The __main__ block (src/serve.py lines 23-32) -/

/-- Python `PORT = 8000`. -/
def PORT : Nat := 8000

/-- First startup line. -/
def startupLine1 : String :=
  "Server running at http://localhost:" ++ toString PORT ++ "/"

/-- Second startup line. -/
def startupLine2 : String :=
  "Test the modular page at: http://localhost:" ++ toString PORT ++
    "/node-guides/procurement-provisioning/index-modular.html"

/-- An observable process-level event of the `__main__` block. -/
inductive Event
  | chdir (dir : String)
  | bind (host : String) (port : Nat)
  | printLine (line : String)
  | serveForever
deriving DecidableEq, Repr

/-- The `__main__` block as the ordered sequence of observable events:
`os.chdir(os.path.dirname(os.path.abspath(__file__)))`, the `TCPServer`
construction binding `("", PORT)`, the two prints, then
`httpd.serve_forever()`.  It reads neither `argv` nor the environment. -/
def main_events (scriptDir : String) (argv : List String)
    (environ : List (String × String)) : List Event :=
  [.chdir scriptDir,
   .bind "" PORT,
   .printLine startupLine1,
   .printLine startupLine2,
   .serveForever]

/-- Recognizer for chdir events. -/
def Event.isChdir : Event → Bool
  | .chdir _ => true
  | _ => false

/-- Recognizer for bind events. -/
def Event.isBind : Event → Bool
  | .bind _ _ => true
  | _ => false

/-- The printed line of a print event. -/
def Event.printed : Event → Option String
  | .printLine s => some s
  | _ => none

/-- Recognizer for the serve-forever event. -/
def Event.isServe : Event → Bool
  | .serveForever => true
  | _ => false

/-! ### Request sequences -/

/-- The state the server threads between requests: the filesystem and the
served root.  The handler classes define no mutable class or module
attributes and a fresh handler instance is built per request. -/
structure ServerState where
  fs : FileSystem
  root : List String

/-- Handling one request: GET, HEAD and OPTIONS write nothing, so the state
comes back unchanged next to the response. -/
def handle_step (env : Env) (s : ServerState) (req : Request) :
    ServerState × Response :=
  (s, handle env s.fs s.root req)

/-- Handling a sequence of requests in order, threading the state. -/
def serve_sequence (env : Env) (s : ServerState) : List Request → List Response
  | [] => []
  | r :: rs =>
    let p := handle_step env s r
    p.2 :: serve_sequence env p.1 rs

/-! ## Helper lemmas -/

theorem end_headers_eq (buf : List Header) :
    end_headers buf = buf ++ CORS_headers := by
  simp [end_headers, end_headers_ops, HeaderAction.apply, CORS_headers]

theorem mkResponse_headers (s : Nat) (buf : List Header) (b : List Nat) :
    (mkResponse s buf b).headers = buf ++ CORS_headers := by
  simp [mkResponse, end_headers_eq]

theorem cors_suffix_mkResponse (s : Nat) (buf : List Header) (b : List Nat) :
    CORS_headers <:+ (mkResponse s buf b).headers :=
  ⟨buf, (mkResponse_headers s buf b).symm⟩

theorem cors_suffix_send_error (env : Env) (c : String) (code : Nat)
    (m : String) : CORS_headers <:+ (send_error env c code m).headers := by
  simp only [send_error]
  split
  · exact cors_suffix_mkResponse _ _ _
  · exact cors_suffix_mkResponse _ _ _

theorem cors_suffix_file_tail (env : Env) (fs : FileSystem) (c : String)
    (path : List String) (ts : Bool) :
    CORS_headers <:+ (file_tail env fs c path ts).1.headers := by
  simp only [file_tail]
  split
  · exact cors_suffix_send_error _ _ _ _
  · split
    · exact cors_suffix_mkResponse _ _ _
    · exact cors_suffix_send_error _ _ _ _

theorem cors_suffix_list_directory (env : Env) (fs : FileSystem)
    (dirPath : List String) (reqPath : String) (listing : List String) :
    CORS_headers <:+ (list_directory env fs dirPath reqPath listing).1.headers := by
  simp only [list_directory]
  exact cors_suffix_mkResponse _ _ _

theorem cors_suffix_send_head (env : Env) (fs : FileSystem)
    (root : List String) (c p : String) :
    CORS_headers <:+ (send_head env fs root c p).1.headers := by
  simp only [send_head]
  split
  · split
    · exact cors_suffix_mkResponse _ _ _
    · split
      · exact cors_suffix_file_tail _ _ _ _ _
      · split
        · exact cors_suffix_file_tail _ _ _ _ _
        · exact cors_suffix_list_directory _ _ _ _ _
  · exact cors_suffix_file_tail _ _ _ _ _

theorem cors_suffix_do_GET (env : Env) (fs : FileSystem) (root : List String)
    (p : String) : CORS_headers <:+ (do_GET env fs root p).headers := by
  unfold do_GET
  split
  · next resp content h =>
    have hs := cors_suffix_send_head env fs root "GET" p
    rw [h] at hs
    exact hs
  · next resp h =>
    have hs := cors_suffix_send_head env fs root "GET" p
    rw [h] at hs
    exact hs

theorem cors_suffix_handle (env : Env) (fs : FileSystem) (root : List String)
    (req : Request) : CORS_headers <:+ (handle env fs root req).headers := by
  unfold handle
  split
  · exact cors_suffix_do_GET _ _ _ _
  · split
    · exact cors_suffix_send_head _ _ _ _ _
    · split
      · exact cors_suffix_mkResponse _ _ _
      · exact cors_suffix_send_error _ _ _ _

theorem send_error_status (env : Env) (c : String) (code : Nat) (m : String) :
    (send_error env c code m).status = code := by
  simp only [send_error]
  split <;> rfl

theorem file_tail_missing_status (env : Env) (fs : FileSystem) (c : String)
    (path : List String) (ts : Bool) (h : fs.lookup path = none) :
    (file_tail env fs c path ts).1.status = 404 := by
  simp only [file_tail]
  split
  · exact send_error_status _ _ _ _
  · rw [h]
    exact send_error_status _ _ _ _

/-! ## Congruence lemmas: the handler consults the filesystem only below
the served root -/

theorem isdir_congr {fs₁ fs₂ : FileSystem} {q : List String}
    (h : fs₁.lookup q = fs₂.lookup q) : fs₁.isdir q = fs₂.isdir q := by
  unfold FileSystem.isdir
  rw [h]

theorem isfile_congr {fs₁ fs₂ : FileSystem} {q : List String}
    (h : fs₁.lookup q = fs₂.lookup q) : fs₁.isfile q = fs₂.isfile q := by
  unfold FileSystem.isfile
  rw [h]

theorem file_tail_congr (env : Env) {fs₁ fs₂ : FileSystem} (c : String)
    (path : List String) (ts : Bool)
    (h : fs₁.lookup path = fs₂.lookup path) :
    file_tail env fs₁ c path ts = file_tail env fs₂ c path ts := by
  unfold file_tail
  rw [h]

theorem dir_item_congr {fs₁ fs₂ : FileSystem} (dirPath : List String)
    (h : ∀ name, fs₁.isdir (dirPath ++ [name]) = fs₂.isdir (dirPath ++ [name])) :
    dir_item fs₁ dirPath = dir_item fs₂ dirPath := by
  funext name
  unfold dir_item
  rw [h name]

theorem list_directory_congr (env : Env) {fs₁ fs₂ : FileSystem}
    (dirPath : List String) (reqPath : String) (listing : List String)
    (h : ∀ name, fs₁.isdir (dirPath ++ [name]) = fs₂.isdir (dirPath ++ [name])) :
    list_directory env fs₁ dirPath reqPath listing =
      list_directory env fs₂ dirPath reqPath listing := by
  unfold list_directory
  rw [dir_item_congr dirPath h]

theorem send_head_congr (env : Env) {fs₁ fs₂ : FileSystem}
    (root : List String) (c p : String)
    (h : ∀ q : List String, root <+: q → fs₁.lookup q = fs₂.lookup q) :
    send_head env fs₁ root c p = send_head env fs₂ root c p := by
  have hl : ∀ X : List String,
      fs₁.lookup (root ++ (translate_path p).comps ++ X) =
        fs₂.lookup (root ++ (translate_path p).comps ++ X) := by
    intro X
    exact h _ ⟨(translate_path p).comps ++ X, by rw [List.append_assoc]⟩
  have h0 : fs₁.lookup (root ++ (translate_path p).comps) =
      fs₂.lookup (root ++ (translate_path p).comps) := by
    have := hl []
    simpa using this
  simp only [send_head]
  rw [h0]
  split
  · rw [isfile_congr (hl ["index.html"]), isfile_congr (hl ["index.htm"]),
      file_tail_congr env c _ false (hl ["index.html"]),
      file_tail_congr env c _ false (hl ["index.htm"]),
      list_directory_congr env _ p _ (fun name => isdir_congr (hl [name]))]
  · exact file_tail_congr env c _ _ h0

theorem suffix_mem {l₁ l₂ : List Header} (h : l₁ <:+ l₂) {x : Header}
    (hx : x ∈ l₁) : x ∈ l₂ := by
  rcases h with ⟨t, rfl⟩
  exact List.mem_append_right t hx

/-! ## Claims -/

/-- C1: For every HTTP request, regardless of method and of the response's
status code, the response emitted by the handler includes the three headers
`Access-Control-Allow-Origin: *`,
`Access-Control-Allow-Methods: GET, POST, OPTIONS` and
`Access-Control-Allow-Headers: Content-Type`, because the overridden
`end_headers` unconditionally appends them before the base class sends the
header block. -/
theorem handle_always_includes_cors_headers (env : Env) (fs : FileSystem)
    (root : List String) (req : Request) :
    ("Access-Control-Allow-Origin", "*") ∈ (handle env fs root req).headers ∧
    ("Access-Control-Allow-Methods", "GET, POST, OPTIONS") ∈
      (handle env fs root req).headers ∧
    ("Access-Control-Allow-Headers", "Content-Type") ∈
      (handle env fs root req).headers ∧
    CORS_headers <:+ (handle env fs root req).headers := by
  have h := cors_suffix_handle env fs root req
  exact ⟨suffix_mem h (by simp [CORS_headers]),
    suffix_mem h (by simp [CORS_headers]),
    suffix_mem h (by simp [CORS_headers]), h⟩

/-- C2: For every OPTIONS request, whatever its path, the handler responds
with status 200, an empty body, and exactly the standard `Server` and
`Date` headers followed by the three CORS headers. -/
theorem options_request_gets_200_empty_cors (env : Env) (fs : FileSystem)
    (root : List String) (p : String) :
    handle env fs root ⟨"OPTIONS", p⟩ =
      ⟨200, [("Server", env.serverVersion), ("Date", env.dateNow)] ++
        CORS_headers, []⟩ := by
  unfold handle
  dsimp only
  rw [if_neg (by decide), if_neg (by decide), if_pos rfl]
  simp [do_OPTIONS, mkResponse, end_headers_eq, send_response_headers]

/-- C3: The overridden `end_headers` performs no deduplication: the final
header block is the buffered headers followed by the three CORS headers, so
when the base file-serving logic already buffered a header with the same
name as a CORS header, both that header and the appended CORS header are
present, the CORS copies coming after the base's headers. -/
theorem end_headers_appends_without_dedup (buf : List Header)
    (n v v2 : String) (hbase : (n, v) ∈ buf)
    (hcors : (n, v2) ∈ CORS_headers) :
    end_headers buf = buf ++ CORS_headers ∧
    (n, v) ∈ end_headers buf ∧ (n, v2) ∈ end_headers buf := by
  refine ⟨end_headers_eq buf, ?_, ?_⟩ <;> rw [end_headers_eq] <;>
    simp [hbase, hcors]

/-- Witness for C3: a base-set `Access-Control-Allow-Origin: null` and the
appended `Access-Control-Allow-Origin: *` are both in the final block. -/
theorem end_headers_appends_without_dedup_witness :
    (("Access-Control-Allow-Origin", "null") ∈
      [(("Access-Control-Allow-Origin" : String), ("null" : String))] ∧
     ("Access-Control-Allow-Origin", "*") ∈ CORS_headers) ∧
    (end_headers [("Access-Control-Allow-Origin", "null")] =
      [("Access-Control-Allow-Origin", "null")] ++ CORS_headers ∧
     ("Access-Control-Allow-Origin", "null") ∈
      end_headers [("Access-Control-Allow-Origin", "null")] ∧
     ("Access-Control-Allow-Origin", "*") ∈
      end_headers [("Access-Control-Allow-Origin", "null")]) :=
  ⟨⟨by decide, by decide⟩,
   end_headers_appends_without_dedup _ _ _ _ (by decide) (by decide)⟩

/-- C4 (counterexample to the claim as stated): with the served root
`["srv"]` containing `etc/passwd`, the traversal request
`GET /../../etc/passwd` is not rejected with 404 or 403 — the traversal
components are discarded during path resolution and the in-root file
`srv/etc/passwd` is served with status 200. -/
theorem traversal_request_not_rejected_counterexample :
    (handle ⟨"V", "D", fun _ => "M"⟩
        [(["srv"], Entry.dir ["etc"]), (["srv", "etc"], Entry.dir ["passwd"]),
         (["srv", "etc", "passwd"], Entry.file [114, 111, 111, 116] 0)]
        ["srv"] ⟨"GET", "/../../etc/passwd"⟩).status = 200 ∧
    (handle ⟨"V", "D", fun _ => "M"⟩
        [(["srv"], Entry.dir ["etc"]), (["srv", "etc"], Entry.dir ["passwd"]),
         (["srv", "etc", "passwd"], Entry.file [114, 111, 111, 116] 0)]
        ["srv"] ⟨"GET", "/../../etc/passwd"⟩).body = [114, 111, 111, 116] ∧
    (handle ⟨"V", "D", fun _ => "M"⟩
        [(["srv"], Entry.dir ["etc"]), (["srv", "etc"], Entry.dir ["passwd"]),
         (["srv", "etc", "passwd"], Entry.file [114, 111, 111, 116] 0)]
        ["srv"] ⟨"GET", "/../../etc/passwd"⟩).status ≠ 404 ∧
    (handle ⟨"V", "D", fun _ => "M"⟩
        [(["srv"], Entry.dir ["etc"]), (["srv", "etc"], Entry.dir ["passwd"]),
         (["srv", "etc", "passwd"], Entry.file [114, 111, 111, 116] 0)]
        ["srv"] ⟨"GET", "/../../etc/passwd"⟩).status ≠ 403 := by
  exact ⟨rfl, rfl, by decide, by decide⟩

/-- C4 (amended): path traversal is neutralized rather than rejected — the
resolved path components contain no `..`, `.` or empty component, so the
request is resolved strictly inside the served root, and the response to a
GET request depends only on the filesystem entries whose paths extend the
served root: a file outside the root is never consulted, let alone
served. -/
theorem traversal_neutralized_and_root_confined (env : Env)
    (root : List String) (p : String) (fs₁ fs₂ : FileSystem)
    (hagree : ∀ q : List String, root <+: q → fs₁.lookup q = fs₂.lookup q) :
    (".." ∉ (translate_path p).comps ∧ "." ∉ (translate_path p).comps ∧
      "" ∉ (translate_path p).comps) ∧
    handle env fs₁ root ⟨"GET", p⟩ = handle env fs₂ root ⟨"GET", p⟩ := by
  constructor
  · refine ⟨?_, ?_, ?_⟩ <;> (intro hmem; simp [translate_path] at hmem)
  · unfold handle
    rw [if_pos rfl, if_pos rfl]
    unfold do_GET
    rw [send_head_congr env root "GET" p hagree]

/-- Witness for C4 (amended): two filesystems agreeing under the root
`["srv"]` but differing outside it give the same answer to the traversal
request. -/
theorem traversal_neutralized_and_root_confined_witness :
    (∀ q : List String, ["srv"] <+: q →
      FileSystem.lookup [(["srv"], Entry.dir [])] q =
        FileSystem.lookup
          [(["srv"], Entry.dir []), (["etc", "passwd"], Entry.file [1] 0)] q) ∧
    ((".." ∉ (translate_path "/../../etc/passwd").comps ∧
      "." ∉ (translate_path "/../../etc/passwd").comps ∧
      "" ∉ (translate_path "/../../etc/passwd").comps) ∧
     handle ⟨"V", "D", fun _ => "M"⟩ [(["srv"], Entry.dir [])] ["srv"]
        ⟨"GET", "/../../etc/passwd"⟩ =
      handle ⟨"V", "D", fun _ => "M"⟩
        [(["srv"], Entry.dir []), (["etc", "passwd"], Entry.file [1] 0)]
        ["srv"] ⟨"GET", "/../../etc/passwd"⟩) := by
  have hagree : ∀ q : List String, ["srv"] <+: q →
      FileSystem.lookup [(["srv"], Entry.dir [])] q =
        FileSystem.lookup
          [(["srv"], Entry.dir []), (["etc", "passwd"], Entry.file [1] 0)] q := by
    intro q hq
    have hne : q ≠ ["etc", "passwd"] := by
      rintro rfl
      rcases hq with ⟨t, ht⟩
      simp at ht
    have hbeq : (["etc", "passwd"] == q) = false := by
      simp [Ne.symm hne]
    simp [FileSystem.lookup, List.find?, hbeq]
  exact ⟨hagree,
    traversal_neutralized_and_root_confined _ _ _ _ _ hagree⟩

/-- C5: a GET request whose resolved path has no entry in the filesystem is
answered with status 404, and the response still carries the three CORS
headers; the handler is a total function, so the error surfaces as a
status code rather than a crash. -/
theorem missing_file_gets_404_with_cors (env : Env) (fs : FileSystem)
    (root : List String) (p : String)
    (hmiss : fs.lookup (root ++ (translate_path p).comps) = none) :
    (handle env fs root ⟨"GET", p⟩).status = 404 ∧
    CORS_headers <:+ (handle env fs root ⟨"GET", p⟩).headers := by
  refine ⟨?_, cors_suffix_handle _ _ _ _⟩
  have hsh1 : (send_head env fs root "GET" p).1.status = 404 := by
    simp only [send_head, hmiss]
    exact file_tail_missing_status env fs "GET" _ _ hmiss
  have hsh2 : (send_head env fs root "GET" p).2 = none := by
    simp only [send_head, hmiss, file_tail]
    split <;> simp [hmiss]
  unfold handle
  rw [if_pos rfl]
  unfold do_GET
  cases h2 : send_head env fs root "GET" p with
  | mk resp payload =>
    rw [h2] at hsh1 hsh2
    simp only at hsh1 hsh2
    subst hsh2
    exact hsh1

/-- Witness for C5: the empty filesystem has no entry for
`/missing-file.xyz`, and the response is a 404 carrying the CORS
headers. -/
theorem missing_file_gets_404_with_cors_witness :
    FileSystem.lookup []
      ([] ++ (translate_path "/missing-file.xyz").comps) = none ∧
    ((handle ⟨"V", "D", fun _ => "M"⟩ [] []
        ⟨"GET", "/missing-file.xyz"⟩).status = 404 ∧
     CORS_headers <:+ (handle ⟨"V", "D", fun _ => "M"⟩ [] []
        ⟨"GET", "/missing-file.xyz"⟩).headers) :=
  ⟨rfl, missing_file_gets_404_with_cors _ [] [] _ rfl⟩

/-- C6: in the `__main__` block the working directory is changed to the
script's directory as the very first event, strictly before the listener is
created (second event) and long before `serve_forever` (last event), and no
other chdir ever happens. -/
theorem chdir_first_then_bind_then_serve (d : String) (argv : List String)
    (environ : List (String × String)) :
    (main_events d argv environ).head? = some (.chdir d) ∧
    (main_events d argv environ).filter Event.isChdir = [.chdir d] ∧
    (main_events d argv environ)[1]? = some (.bind "" 8000) ∧
    (main_events d argv environ).getLast? = some .serveForever :=
  ⟨rfl, rfl, rfl, rfl⟩

/-- C7: the only bind event is to address `("", 8000)` — all interfaces,
port 8000 — and the startup trace is the same whatever the command line
arguments or environment, so nothing can change the port. -/
theorem listener_fixed_port_8000 (d : String) (a a2 : List String)
    (e e2 : List (String × String)) :
    (main_events d a e).filter Event.isBind = [.bind "" 8000] ∧
    main_events d a e = main_events d a2 e2 :=
  ⟨rfl, rfl⟩

/-- C8: request handling is stateless — handling a sequence of requests
returns, at every position, exactly the response the handler gives to that
request against the initial server state, independent of the requests
handled before it; the state threaded through `handle_step` is never
modified. -/
theorem request_handling_stateless (env : Env) (s : ServerState)
    (reqs : List Request) :
    serve_sequence env s reqs = reqs.map (handle env s.fs s.root) ∧
    ∀ r : Request, (handle_step env s r).1 = s := by
  refine ⟨?_, fun r => rfl⟩
  induction reqs with
  | nil => rfl
  | cons r rs ih => simp [serve_sequence, handle_step, ih]

/-- C9: before `serve_forever` runs, the process prints exactly two lines:
the first contains the listening URL `http://localhost:8000/` and the
second contains the test URL path
`node-guides/procurement-provisioning/index-modular.html`. -/
theorem startup_prints_listening_and_test_urls (d : String)
    (a : List String) (e : List (String × String)) :
    ((main_events d a e).takeWhile (fun ev => !ev.isServe)).filterMap
        Event.printed = [startupLine1, startupLine2] ∧
    "http://localhost:8000/".data <:+: startupLine1.data ∧
    "node-guides/procurement-provisioning/index-modular.html".data <:+:
      startupLine2.data :=
  ⟨rfl, by decide, by decide⟩

/-- C10: the overridden `end_headers` only appends — for every already
buffered header block it produces exactly that block followed by the three
CORS headers in their fixed order, its primitive calls send exactly the
three CORS headers, and the base finalization is invoked exactly once, as
the last step. -/
theorem end_headers_only_appends_cors_then_base :
    (∀ buf : List Header, end_headers buf = buf ++ CORS_headers) ∧
    end_headers_ops.filterMap HeaderAction.added = CORS_headers ∧
    end_headers_ops.count HeaderAction.base = 1 ∧
    end_headers_ops.getLast? = some HeaderAction.base :=
  ⟨end_headers_eq, by decide, by decide, by decide⟩

end Serve
